import Mathlib

/-!
RavineDespoiler — verification of the physics / state-machine core

Shallow embedding of `src/RavineDespoiler/Game.h` (namespace
`RavineDespoilerGame`).  The fixed-point numeric types `SFixed<7,8>`
(`Number`) and `SFixed<15,16>` (`BigNumber`) are modelled as exact
rationals `ℚ`: the spec treats them as "a numeric primitive with bounded
precision", and every claim under verification is about the structural
branch behaviour of the arithmetic (equalities between positions, bounds
and negated/scaled velocities), which is identical under exact rational
arithmetic.  Machine-level rounding of the literals (e.g. `0.7` stored as
`179/256`) does not affect any claim, so literals keep their exact decimal
values.

External collaborators (Arduboy2, ArduboyTones, the RNG from `Util.h`,
asset dimensions from the bitmap headers) are not part of `src/`; where a
claim depends on them they are modelled from the spec, with a doc comment
saying so, and otherwise abstracted as parameters or oracle inputs.
-/

namespace RavineDespoilerGame

/-- Screen width of the Arduboy display (external `WIDTH` constant of the
Arduboy2 library; standard value 128). -/
def WIDTH : ℚ := 128

/-- Screen height of the Arduboy display (external `HEIGHT` constant of the
Arduboy2 library; standard value 64). -/
def HEIGHT : ℚ := 64

/-- Embeds `constexpr Number CoefficientOfFriction = 0.95;` (declared but the use
site is commented out in `applyXVelocity`). -/
def CoefficientOfFriction : ℚ := 0.95

/-- Embeds `constexpr Number CoefficientOfGravity = 0.5;` -/
def CoefficientOfGravity : ℚ := 0.5

/-- Embeds `constexpr Number CoefficientOfRestitution = 0.7;` -/
def CoefficientOfRestitution : ℚ := 0.7

/-- Embeds `constexpr Number InputForce = 0.25;` (unused by the core logic). -/
def InputForce : ℚ := 0.25

/-- Arduino's `constrain(amt, low, high)` macro:
`amt < low ? low : (amt > high ? high : amt)`. -/
def constrain (amt low high : ℚ) : ℚ :=
  if amt < low then low else if amt > high then high else amt

/-- Embeds `struct GameObject` (Game.h:64-108): position, velocity and
axis-aligned bounds, with the member initializers of the source. -/
structure GameObject where
  x : ℚ := 0
  x_min : ℚ := 0
  x_max : ℚ := WIDTH
  x_vel : ℚ := 0
  y : ℚ := 0
  y_min : ℚ := 0
  y_max : ℚ := HEIGHT
  y_vel : ℚ := 0
deriving Repr, DecidableEq

/-- Embeds `GameObject::move` (Game.h:68-73): set position, then clamp both axes
into bounds. -/
def GameObject.move (o : GameObject) (newX newY : ℚ) : GameObject :=
  { o with
    x := constrain newX o.x_min o.x_max
    y := constrain newY o.y_min o.y_max }

/-- Embeds `GameObject::adjust` (Game.h:74): `move(x + dx, y + dy)`. -/
def GameObject.adjust (o : GameObject) (dx dy : ℚ) : GameObject :=
  o.move (o.x + dx) (o.y + dy)

/-- Embeds `GameObject::applyXVelocity` (Game.h:78-88): add `x_vel` to `x`; if the
result left the bounds, clamp to the crossed bound and negate `x_vel`.
The friction line (`x_vel = x_vel * CoefficientOfFriction`) is commented
out in the source and therefore absent here. -/
def GameObject.applyXVelocity (o : GameObject) : GameObject :=
  let x := o.x + o.x_vel
  if x < o.x_min then
    { o with x := o.x_min, x_vel := -o.x_vel }
  else if x > o.x_max then
    { o with x := o.x_max, x_vel := -o.x_vel }
  else
    { o with x := x }

/-- Embeds `GameObject::applyYVelocity` (Game.h:90-102): the position update and
bounce handling run only when `y_vel != 0`; the gravity add
`y_vel = y_vel + CoefficientOfGravity` is OUTSIDE that guarded block (it is
the last statement of the function body) and therefore runs
unconditionally. -/
def GameObject.applyYVelocity (o : GameObject) : GameObject :=
  let o' :=
    if o.y_vel ≠ 0 then
      let y := o.y + o.y_vel
      if y < o.y_min then
        { o with y := o.y_min, y_vel := -o.y_vel }
      else if y > o.y_max then
        { o with y := o.y_max, y_vel := -o.y_vel * CoefficientOfRestitution }
      else
        { o with y := y }
    else o
  { o' with y_vel := o'.y_vel + CoefficientOfGravity }

/-- Embeds `GameObject::applyVelocity` (Game.h:104-107): horizontal step then
vertical step. -/
def GameObject.applyVelocity (o : GameObject) : GameObject :=
  o.applyXVelocity.applyYVelocity

/-! ## Entities

The asset dimensions `plane_width`, `plane_height`, `zeppelin_width`,
`zeppelin_height` and the layout constant `ravine_top` come from the bitmap
headers, which are not under `src/`; every definition below takes the ones
it needs as explicit parameters, and theorems quantify over them. -/

/-- Embeds `Plane::offscreen_x_margin = 10` (Game.h:117). -/
def Plane.offscreen_x_margin : ℚ := 10

/-- The `Plane()` constructor (Game.h:118-123): the `GameObject` member
initializers run first, then the bounds are overwritten.  `pw` is
`plane_width`, `ph` is `plane_height`, `rt` is `ravine_top` (asset
constants not under `src/`). -/
def Plane.init (pw ph rt : ℚ) : GameObject :=
  { x_min := -Plane.offscreen_x_margin - pw
    x_max := WIDTH + Plane.offscreen_x_margin
    y_min := 0
    y_max := rt - ph - 2 }

/-- Embeds `Plane::applyXVelocity` (Game.h:125-130): run the base
`GameObject::applyXVelocity`, then, if the resulting `x` equals `x_min` or
`x_max`, set `y := randomSFixed(y_min, y_max)`.  `randomSFixed` lives in
`Util.h`, which is not under `src/`; per the spec it "returns a value
uniformly selected in [lo, hi] using an external random source", so the
value it returned this call is passed in as the oracle argument `r`. -/
def Plane.applyXVelocity (r : ℚ) (o : GameObject) : GameObject :=
  let o' := o.applyXVelocity
  if o'.x = o'.x_min ∨ o'.x = o'.x_max then { o' with y := r } else o'

/-- Embeds `Plane::reset` (Game.h:132-136). -/
def Plane.reset (o : GameObject) : GameObject :=
  { o with x := 10, y := 2, x_vel := 1 }

/-- Embeds `Zeppelin::offscreen_x_margin = 20` (Game.h:145). -/
def Zeppelin.offscreen_x_margin : ℚ := 20

/-- The `Zeppelin()` constructor (Game.h:146-150).  Note the source really
uses `plane_width` (not `zeppelin_width`) in `x_min`; `pw` is
`plane_width`. -/
def Zeppelin.init (pw : ℚ) : GameObject :=
  { x_min := -Zeppelin.offscreen_x_margin - pw
    x_max := WIDTH + Zeppelin.offscreen_x_margin
    y_min := 0
    y_max := 0 }

/-- Embeds `Zeppelin::reset` (Game.h:152-156). -/
def Zeppelin.reset (o : GameObject) : GameObject :=
  { o with x := o.x_max, y := 0, x_vel := -0.5 }

/-! ## Game state machine -/

/-- Embeds `enum GameState` (Game.h:165-171). -/
inductive GameState where
  | INITIAL_LOGO
  | TITLE_SCREEN
  | OBJECTIVE_SCREEN
  | GAME_ACTIVE
  | LEVEL_COMPLETE
deriving Repr, DecidableEq

/-- The per-tick external observations the handlers read: button queries
(`arduboy.pressed` / `arduboy.justPressed`), the value the RNG would
return for this tick's `randomSFixed` call, and the fresh seed
`arduboy.generateRandomSeed()` would produce. -/
structure Input where
  leftPressed : Bool
  rightPressed : Bool
  aPressed : Bool
  aJustPressed : Bool
  bJustPressed : Bool
  rand : ℚ
  freshSeed : ℕ
deriving Repr, DecidableEq

/-- The program state touched by the core: `arduboy.frameCount`, whether a
sound cue is playing (`ArduboyTones` state: `noTone` clears it, and no tone
is ever started in Game.h), the RNG seed last installed by `randomSeed`,
the current `GameState`, and the two physics entities. -/
structure World where
  frameCount : ℕ
  soundPlaying : Bool
  rngSeed : ℕ
  state : GameState
  plane : GameObject
  zeppelin : GameObject
deriving Repr, DecidableEq

/-- Embeds `enter_state` (Game.h:173-185): zero the frame counter, stop any
playing tone, set the new state; the `TITLE_SCREEN` branch is an empty
block (comment only), the `GAME_ACTIVE` branch calls
`randomSeed(arduboy.generateRandomSeed())` — modelled as installing the
externally produced `freshSeed` — and `plane.reset()`. -/
def enter_state (w : World) (newState : GameState) (freshSeed : ℕ) : World :=
  let w := { w with frameCount := 0, soundPlaying := false, state := newState }
  if newState = GameState.TITLE_SCREEN then
    w
  else if newState = GameState.GAME_ACTIVE then
    { w with rngSeed := freshSeed, plane := Plane.reset w.plane }
  else
    w

/-- Embeds `initial_logo` (Game.h:187-195); the `frameCount == 1` branch only
draws. -/
def initial_logo (inp : Input) (w : World) : World :=
  if w.frameCount > 90 then enter_state w GameState.TITLE_SCREEN inp.freshSeed else w

/-- Embeds `title_screen` (Game.h:197-219): on `frameCount == 1` reset the
zeppelin (the rest of that branch and the `frameCount == 180` branch only
draw); every frame integrate the zeppelin horizontally; on `justPressed(A)`
enter `GAME_ACTIVE` (the `OBJECTIVE_SCREEN` transition is commented out in
the source). -/
def title_screen (inp : Input) (w : World) : World :=
  let w := if w.frameCount = 1 then { w with zeppelin := Zeppelin.reset w.zeppelin } else w
  let w := { w with zeppelin := w.zeppelin.applyXVelocity }
  if inp.aJustPressed then enter_state w GameState.GAME_ACTIVE inp.freshSeed else w

/-- Embeds `objective_screen` (Game.h:221-229); the `frameCount == 1` branch only
draws. -/
def objective_screen (inp : Input) (w : World) : World :=
  if w.frameCount > 120 then enter_state w GameState.GAME_ACTIVE inp.freshSeed else w

/-- The input-to-velocity mapping at the top of `game_active`
(Game.h:233-239): normalize to ±1 keeping the sign, then the
`LEFT_BUTTON` conditional assignment, then the `RIGHT_BUTTON` one. -/
def inputVelocity (v : ℚ) (left right : Bool) : ℚ :=
  let v := if v < 0 then (-1 : ℚ) else 1
  let v := if left then (if v < 0 then (-1.5 : ℚ) else 0.5) else v
  if right then (if v < 0 then (-0.5 : ℚ) else 1.5) else v

/-- Embeds `game_active` (Game.h:231-250): set the plane's `x_vel` from input,
run `plane.applyXVelocity()` (the `Plane` override), draw, and on
`pressed(A) && justPressed(B)` enter `INITIAL_LOGO`. -/
def game_active (inp : Input) (w : World) : World :=
  let w := { w with
    plane := Plane.applyXVelocity inp.rand
      { w.plane with x_vel := inputVelocity w.plane.x_vel inp.leftPressed inp.rightPressed } }
  if inp.aPressed && inp.bJustPressed then
    enter_state w GameState.INITIAL_LOGO inp.freshSeed
  else
    w

/-- Embeds `level_complete` (Game.h:252-256). -/
def level_complete (inp : Input) (w : World) : World :=
  if w.frameCount > 150 ∧ w.soundPlaying = false then
    enter_state w GameState.TITLE_SCREEN inp.freshSeed
  else
    w

/-- One executed frame of `loop` (Game.h:264-290).  Modelled from the spec:
`arduboy.nextFrameDEV()` is an external Arduboy2 collaborator; the spec
says the per-state frame counter is "reset to 0 on transition, then
incremented in the new state's first tick", so a tick that proceeds first
increments `frameCount` and then dispatches on the current state.  Ticks
where `nextFrameDEV()` returns false change nothing and are not
modelled. -/
def tick (inp : Input) (w : World) : World :=
  let w := { w with frameCount := w.frameCount + 1 }
  match w.state with
  | GameState.INITIAL_LOGO => initial_logo inp w
  | GameState.TITLE_SCREEN => title_screen inp w
  | GameState.OBJECTIVE_SCREEN => objective_screen inp w
  | GameState.GAME_ACTIVE => game_active inp w
  | GameState.LEVEL_COMPLETE => level_complete inp w

/-- The globals as constructed before `setup` runs: `state = INITIAL_LOGO`
(Game.h:171), entities fresh from their constructors. -/
def initialWorld (pw ph rt : ℚ) : World :=
  { frameCount := 0
    soundPlaying := false
    rngSeed := 0
    state := GameState.INITIAL_LOGO
    plane := Plane.init pw ph rt
    zeppelin := Zeppelin.init pw }

/-- Embeds `setup` (Game.h:258-262): `arduboy.begin()` and `setFrameRate` are
external; the core effect is `enter_state(INITIAL_LOGO)`. -/
def setup (pw ph rt : ℚ) : World :=
  enter_state (initialWorld pw ph rt) GameState.INITIAL_LOGO 0

/-- Run a sequence of executed frames. -/
def run (w : World) : List Input → World
  | [] => w
  | inp :: rest => run (tick inp w) rest

/-! ## Derived predicates and concrete instances used by the theorems -/

/-- Position lies inside the object's own bounds on both axes. -/
def GameObject.inBounds (o : GameObject) : Prop :=
  o.x_min ≤ o.x ∧ o.x ≤ o.x_max ∧ o.y_min ≤ o.y ∧ o.y ≤ o.y_max

/-- A body vertically at rest (`y_vel = 0`), default bounds, `y = 3`. -/
def restBody : GameObject := { y := 3 }

/-- A body about to cross `x_max`: `x + x_vel = 140 > 128`. -/
def bounceBody : GameObject := { x := 120, x_vel := 20 }

/-- A falling body about to cross `y_min`: `y + y_vel = -1 < 0`. -/
def ceilBody : GameObject := { y := 1, y_min := 0, y_max := 10, y_vel := -2 }

/-- A body about to cross `y_max`: `y + y_vel = 12 > 10`. -/
def floorBody : GameObject := { y := 9, y_min := 0, y_max := 10, y_vel := 3 }

/-- A fresh default `GameObject`. -/
def baseObj : GameObject := {}

/-- A world on the title screen with the zeppelin away from its reset
position, a sound cue playing and a nonzero frame counter. -/
def titleWorld : World :=
  { frameCount := 7
    soundPlaying := true
    rngSeed := 0
    state := GameState.TITLE_SCREEN
    plane := Plane.init 16 8 40
    zeppelin := { Zeppelin.init 16 with x := 5 } }

/-- An input with no buttons active. -/
def idleInput : Input :=
  { leftPressed := false
    rightPressed := false
    aPressed := false
    aJustPressed := false
    bJustPressed := false
    rand := 0
    freshSeed := 0 }

/-- The physics operations the Zeppelin exposes (its `reset` plus the
inherited `applyXVelocity` / `applyYVelocity`). -/
inductive ZepOp where
  | reset
  | applyX
  | applyY
deriving Repr, DecidableEq

/-- Apply one Zeppelin physics operation. -/
def applyZepOp (op : ZepOp) (o : GameObject) : GameObject :=
  match op with
  | ZepOp.reset => Zeppelin.reset o
  | ZepOp.applyX => o.applyXVelocity
  | ZepOp.applyY => o.applyYVelocity

/-- Apply a sequence of Zeppelin physics operations. -/
def runZepOps (o : GameObject) : List ZepOp → GameObject
  | [] => o
  | op :: rest => runZepOps (applyZepOp op o) rest

/-- The Zeppelin pinning configuration: `y = 0` with `y_min = y_max = 0`. -/
def zepPinned (o : GameObject) : Prop :=
  o.y = 0 ∧ o.y_min = 0 ∧ o.y_max = 0

/-- The inductive invariant of the running program: both entities have
zero vertical velocity, the zeppelin is pinned at `y = 0`, and the state
is one of the three reachable screens. -/
def GoodWorld (w : World) : Prop :=
  w.plane.y_vel = 0 ∧ w.zeppelin.y_vel = 0 ∧ zepPinned w.zeppelin ∧
    (w.state = GameState.INITIAL_LOGO ∨ w.state = GameState.TITLE_SCREEN ∨
      w.state = GameState.GAME_ACTIVE)

/-! ## Helper lemmas -/

/-- Lemma: `applyXVelocity` touches only `x` and `x_vel`. -/
theorem applyXVelocity_offAxis (o : GameObject) :
    o.applyXVelocity.y = o.y ∧ o.applyXVelocity.y_vel = o.y_vel ∧
    o.applyXVelocity.x_min = o.x_min ∧ o.applyXVelocity.x_max = o.x_max ∧
    o.applyXVelocity.y_min = o.y_min ∧ o.applyXVelocity.y_max = o.y_max := by
  simp only [GameObject.applyXVelocity]
  split_ifs <;> exact ⟨rfl, rfl, rfl, rfl, rfl, rfl⟩

/-- Lemma: `applyYVelocity` touches only `y` and `y_vel`. -/
theorem applyYVelocity_offAxis (o : GameObject) :
    o.applyYVelocity.x = o.x ∧ o.applyYVelocity.x_vel = o.x_vel ∧
    o.applyYVelocity.x_min = o.x_min ∧ o.applyYVelocity.x_max = o.x_max ∧
    o.applyYVelocity.y_min = o.y_min ∧ o.applyYVelocity.y_max = o.y_max := by
  simp only [GameObject.applyYVelocity]
  split_ifs <;> exact ⟨rfl, rfl, rfl, rfl, rfl, rfl⟩

/-- Lemma: `constrain` lands in `[lo, hi]` whenever `lo ≤ hi`. -/
theorem constrain_mem (amt lo hi : ℚ) (h : lo ≤ hi) :
    lo ≤ constrain amt lo hi ∧ constrain amt lo hi ≤ hi := by
  unfold constrain
  split_ifs <;> constructor <;> linarith

/-! ## Claim theorems -/

/-- Claim C1, counterexample: a body with `y_vel = 0` does NOT keep its
`y_vel` across `applyYVelocity` — the gravity add sits outside the guarded
block, so `y_vel` becomes `CoefficientOfGravity = 0.5`. -/
theorem applyYVelocity_at_rest_cex :
    restBody.y_vel = 0 ∧ restBody.applyYVelocity.y_vel ≠ restBody.y_vel := by
  constructor
  · rfl
  · norm_num [restBody, GameObject.applyYVelocity, CoefficientOfGravity]

/-- Claim C1, amended: for every body with `y_vel = 0`, one
`applyYVelocity` step leaves `y` unchanged but sets `y_vel` to
`CoefficientOfGravity` (the gravity add is outside the `y_vel != 0`
guarded block, so it runs even for a vertically-at-rest body). -/
theorem applyYVelocity_at_rest (o : GameObject) (h : o.y_vel = 0) :
    o.applyYVelocity.y = o.y ∧ o.applyYVelocity.y_vel = CoefficientOfGravity := by
  simp [GameObject.applyYVelocity, h]

/-- Witness for `applyYVelocity_at_rest` at the concrete body `restBody`. -/
theorem applyYVelocity_at_rest_witness :
    restBody.applyYVelocity.y = restBody.y ∧
      restBody.applyYVelocity.y_vel = CoefficientOfGravity :=
  applyYVelocity_at_rest restBody rfl

/-- Claim C2: one `applyXVelocity` step adds `x_vel` to `x`; an unclamped
result below `x_min` yields exactly `x_min` with `x_vel` negated, one above
`x_max` yields exactly `x_max` with `x_vel` negated, otherwise `x_vel` is
unchanged; in every case the velocity magnitude is conserved (the friction
damping is commented out in the source). -/
theorem applyXVelocity_spec (o : GameObject) (hb : o.x_min ≤ o.x_max) :
    (o.x + o.x_vel < o.x_min →
      o.applyXVelocity.x = o.x_min ∧ o.applyXVelocity.x_vel = -o.x_vel) ∧
    (o.x + o.x_vel > o.x_max →
      o.applyXVelocity.x = o.x_max ∧ o.applyXVelocity.x_vel = -o.x_vel) ∧
    (o.x_min ≤ o.x + o.x_vel → o.x + o.x_vel ≤ o.x_max →
      o.applyXVelocity.x = o.x + o.x_vel ∧ o.applyXVelocity.x_vel = o.x_vel) ∧
    |o.applyXVelocity.x_vel| = |o.x_vel| := by
  simp only [GameObject.applyXVelocity]
  split_ifs with h1 h2
  · exact ⟨fun _ => ⟨rfl, rfl⟩, fun h => absurd hb (by simp; linarith),
      fun hlo _ => absurd hlo (by simp; linarith), by simp [abs_neg]⟩
  · exact ⟨fun h => absurd hb (by simp; linarith), fun _ => ⟨rfl, rfl⟩,
      fun _ hhi => absurd hhi (by simp; linarith), by simp [abs_neg]⟩
  · exact ⟨fun h => absurd h h1, fun h => absurd h h2,
      fun _ _ => ⟨rfl, rfl⟩, rfl⟩

/-- Witness for `applyXVelocity_spec`: `bounceBody` (`x = 120`,
`x_vel = 20`, bounds `[0, 128]`) overshoots `x_max` and bounces. -/
theorem applyXVelocity_spec_witness :
    bounceBody.applyXVelocity.x = bounceBody.x_max ∧
      bounceBody.applyXVelocity.x_vel = -bounceBody.x_vel :=
  (applyXVelocity_spec bounceBody (by norm_num [bounceBody, WIDTH])).2.1
    (by norm_num [bounceBody, WIDTH])

/-- Claim C3, counterexample: a body with `y_vel = -2` crossing `y_min`
ends the `applyYVelocity` step with `y_vel = 2.5`, not the exact negation
`2`: the unconditional gravity add follows the bounce inside the same
step. -/
theorem applyYVelocity_bounce_cex :
    ceilBody.y_vel ≠ 0 ∧ ceilBody.y + ceilBody.y_vel < ceilBody.y_min ∧
      ceilBody.applyYVelocity.y_vel ≠ -ceilBody.y_vel := by
  refine ⟨by norm_num [ceilBody], by norm_num [ceilBody], ?_⟩
  norm_num [ceilBody, GameObject.applyYVelocity, CoefficientOfGravity]

/-- Claim C3, amended: for a body with `y_vel ≠ 0` and sane bounds, a step
crossing `y_min` sets `y` exactly to `y_min` and ends with
`y_vel = -y_vel + CoefficientOfGravity` (hard reflect, then the gravity
add); a step crossing `y_max` sets `y` exactly to `y_max` and ends with
`y_vel = -y_vel * CoefficientOfRestitution + CoefficientOfGravity` (lossy
bounce, then the gravity add). -/
theorem applyYVelocity_bounce (o : GameObject) (hv : o.y_vel ≠ 0)
    (hb : o.y_min ≤ o.y_max) :
    (o.y + o.y_vel < o.y_min →
      o.applyYVelocity.y = o.y_min ∧
      o.applyYVelocity.y_vel = -o.y_vel + CoefficientOfGravity) ∧
    (o.y + o.y_vel > o.y_max →
      o.applyYVelocity.y = o.y_max ∧
      o.applyYVelocity.y_vel
        = -o.y_vel * CoefficientOfRestitution + CoefficientOfGravity) := by
  simp only [GameObject.applyYVelocity, if_pos hv]
  constructor
  · intro h
    rw [if_pos h]
    exact ⟨rfl, rfl⟩
  · intro h
    rw [if_neg (by linarith), if_pos h]
    exact ⟨rfl, rfl⟩

/-- Witness for `applyYVelocity_bounce`: `ceilBody` crosses `y_min` and
`floorBody` crosses `y_max`. -/
theorem applyYVelocity_bounce_witness :
    (ceilBody.applyYVelocity.y = ceilBody.y_min ∧
      ceilBody.applyYVelocity.y_vel = -ceilBody.y_vel + CoefficientOfGravity) ∧
    (floorBody.applyYVelocity.y = floorBody.y_max ∧
      floorBody.applyYVelocity.y_vel
        = -floorBody.y_vel * CoefficientOfRestitution + CoefficientOfGravity) :=
  ⟨(applyYVelocity_bounce ceilBody (by norm_num [ceilBody])
      (by norm_num [ceilBody])).1 (by norm_num [ceilBody]),
    (applyYVelocity_bounce floorBody (by norm_num [floorBody])
      (by norm_num [floorBody])).2 (by norm_num [floorBody])⟩

/-- Claim C4: the GameActive input step maps the prior `x_vel` and the
Left/Right button states as follows — normalize to ±1 preserving sign,
Left's conditional assignment, then Right's, so with both buttons held
Right's assignment wins (a plane moving right with both held ends at
`+1.5`, matching the Right-only column). -/
theorem game_active_input_mapping (v : ℚ) :
    inputVelocity v false false = (if v < 0 then -1 else 1) ∧
    inputVelocity v true false = (if v < 0 then -1.5 else 0.5) ∧
    inputVelocity v false true = (if v < 0 then -0.5 else 1.5) ∧
    inputVelocity v true true = (if v < 0 then -0.5 else 1.5) := by
  by_cases h : v < 0 <;> norm_num [inputVelocity, h]

/-- Claim C8: `Plane::applyXVelocity` re-rolls `y` exactly when the
post-step `x` sits on a horizontal bound, and leaves `y` unchanged
otherwise; assuming the RNG value `r` returned by
`randomSFixed(y_min, y_max)` lies in `[y_min, y_max]`, the re-rolled `y`
lies in `[y_min, y_max]`. -/
theorem plane_applyXVelocity_reroll (o : GameObject) (r : ℚ)
    (h1 : o.y_min ≤ r) (h2 : r ≤ o.y_max) :
    ((o.applyXVelocity.x = o.x_min ∨ o.applyXVelocity.x = o.x_max) →
      (Plane.applyXVelocity r o).y = r ∧
      o.y_min ≤ (Plane.applyXVelocity r o).y ∧
      (Plane.applyXVelocity r o).y ≤ o.y_max) ∧
    (¬(o.applyXVelocity.x = o.x_min ∨ o.applyXVelocity.x = o.x_max) →
      (Plane.applyXVelocity r o).y = o.y) := by
  have hoff := applyXVelocity_offAxis o
  constructor
  · intro h
    have hc : o.applyXVelocity.x = o.applyXVelocity.x_min ∨
        o.applyXVelocity.x = o.applyXVelocity.x_max := by
      rw [hoff.2.2.1, hoff.2.2.2.1]; exact h
    simp only [Plane.applyXVelocity, if_pos hc]
    exact ⟨by trivial, h1, h2⟩
  · intro h
    have hc : ¬(o.applyXVelocity.x = o.applyXVelocity.x_min ∨
        o.applyXVelocity.x = o.applyXVelocity.x_max) := by
      rw [hoff.2.2.1, hoff.2.2.2.1]; exact h
    simp only [Plane.applyXVelocity, if_neg hc]
    exact hoff.1

/-- Witness for `plane_applyXVelocity_reroll`: `bounceBody` bounces off
`x_max = 128`, so `y` is re-rolled to the RNG value `30`. -/
theorem plane_applyXVelocity_reroll_witness :
    (Plane.applyXVelocity 30 bounceBody).y = 30 ∧
      bounceBody.y_min ≤ (Plane.applyXVelocity 30 bounceBody).y ∧
      (Plane.applyXVelocity 30 bounceBody).y ≤ bounceBody.y_max :=
  (plane_applyXVelocity_reroll bounceBody 30
      (by norm_num [bounceBody]) (by norm_num [bounceBody, HEIGHT])).1
    (Or.inr (by norm_num [bounceBody, WIDTH, GameObject.applyXVelocity]))

/-- Claim C9: with sane bounds, `move` (and hence `adjust`) always lands
in bounds, and `applyXVelocity` / `applyYVelocity` preserve the in-bounds
invariant. -/
theorem physics_preserves_inBounds (o : GameObject)
    (hx : o.x_min ≤ o.x_max) (hy : o.y_min ≤ o.y_max) :
    (∀ nx ny, (o.move nx ny).inBounds) ∧
    (∀ dx dy, (o.adjust dx dy).inBounds) ∧
    (o.inBounds → o.applyXVelocity.inBounds) ∧
    (o.inBounds → o.applyYVelocity.inBounds) := by
  have hmove : ∀ nx ny, (o.move nx ny).inBounds := by
    intro nx ny
    have h1 := constrain_mem nx o.x_min o.x_max hx
    have h2 := constrain_mem ny o.y_min o.y_max hy
    exact ⟨h1.1, h1.2, h2.1, h2.2⟩
  refine ⟨hmove, fun dx dy => hmove _ _, ?_, ?_⟩
  · rintro ⟨-, -, hy1, hy2⟩
    simp only [GameObject.inBounds, GameObject.applyXVelocity]
    split_ifs with h1 h2 <;>
      exact ⟨by simp [le_refl, hx, le_of_not_lt, le_of_not_gt, *],
        by simp [le_refl, hx, le_of_not_lt, le_of_not_gt, *], hy1, hy2⟩
  · rintro ⟨hx1, hx2, hy1, hy2⟩
    simp only [GameObject.inBounds, GameObject.applyYVelocity]
    split_ifs with h0 h1 h2 <;>
      exact ⟨hx1, hx2, by simp [le_refl, hy, le_of_not_lt, le_of_not_gt, *],
        by simp [le_refl, hy, le_of_not_lt, le_of_not_gt, *]⟩

/-- Witness for `physics_preserves_inBounds`: the default body moved to an
out-of-range target is clamped into bounds. -/
theorem physics_preserves_inBounds_witness :
    (baseObj.move 200 (-5)).inBounds :=
  (physics_preserves_inBounds baseObj (by norm_num [baseObj, WIDTH])
      (by norm_num [baseObj, HEIGHT])).1 200 (-5)

/-! ## State machine lemmas -/

/-- Lemma: `Plane::reset` touches only `x`, `y` and `x_vel`. -/
theorem plane_reset_y_vel (o : GameObject) : (Plane.reset o).y_vel = o.y_vel :=
  rfl

/-- Lemma: `Plane::applyXVelocity` never touches `y_vel`. -/
theorem plane_applyXVelocity_y_vel (r : ℚ) (o : GameObject) :
    (Plane.applyXVelocity r o).y_vel = o.y_vel := by
  simp only [Plane.applyXVelocity]
  split_ifs <;> exact (applyXVelocity_offAxis o).2.1

/-- Lemma: `Zeppelin::reset` preserves `y_vel` and the vertical bounds, and pins
`y` to 0. -/
theorem zeppelin_reset_props (o : GameObject) :
    (Zeppelin.reset o).y_vel = o.y_vel ∧ (Zeppelin.reset o).y = 0 ∧
    (Zeppelin.reset o).y_min = o.y_min ∧ (Zeppelin.reset o).y_max = o.y_max :=
  ⟨rfl, rfl, rfl, rfl⟩

/-- Each Zeppelin physics operation keeps a pinned body pinned. -/
theorem zepPinned_step (op : ZepOp) (o : GameObject) (h : zepPinned o) :
    zepPinned (applyZepOp op o) := by
  obtain ⟨h0, h1, h2⟩ := h
  cases op
  · exact ⟨rfl, h1, h2⟩
  · exact ⟨(applyXVelocity_offAxis o).1.trans h0,
      (applyXVelocity_offAxis o).2.2.2.2.1.trans h1,
      (applyXVelocity_offAxis o).2.2.2.2.2.trans h2⟩
  · refine ⟨?_, (applyYVelocity_offAxis o).2.2.2.2.1.trans h1,
      (applyYVelocity_offAxis o).2.2.2.2.2.trans h2⟩
    show (GameObject.applyYVelocity o).y = 0
    simp only [GameObject.applyYVelocity]
    split_ifs with hg hlo hhi
    · exact h1
    · exact h2
    · show o.y + o.y_vel = 0
      rw [h0, h1] at hlo
      rw [h0, h2] at hhi
      rw [h0]
      linarith [le_of_not_lt hlo, le_of_not_lt hhi]
    · exact h0

/-- Lemma: `applyXVelocity` keeps a pinned body pinned. -/
theorem zepPinned_applyX (o : GameObject) (h : zepPinned o) :
    zepPinned o.applyXVelocity :=
  zepPinned_step ZepOp.applyX o h

/-- Lemma: `Zeppelin::reset` keeps a pinned body pinned. -/
theorem zepPinned_reset (o : GameObject) (h : zepPinned o) :
    zepPinned (Zeppelin.reset o) :=
  zepPinned_step ZepOp.reset o h

/-- A pinned Zeppelin stays pinned across any operation sequence. -/
theorem zepPinned_runOps (ops : List ZepOp) (o : GameObject)
    (h : zepPinned o) : zepPinned (runZepOps o ops) := by
  induction ops generalizing o with
  | nil => exact h
  | cons op rest ih => exact ih _ (zepPinned_step op o h)

/-- Lemma: `enter_state` preserves the inductive invariant whenever the target
state is one of the three reachable screens. -/
theorem goodWorld_enter (w : World) (ns : GameState) (s : ℕ)
    (h : GoodWorld w)
    (hns : ns = GameState.INITIAL_LOGO ∨ ns = GameState.TITLE_SCREEN ∨
      ns = GameState.GAME_ACTIVE) :
    GoodWorld (enter_state w ns s) := by
  obtain ⟨hp, hz, hpin, -⟩ := h
  rcases hns with h | h | h <;> subst h
  · exact ⟨hp, hz, hpin, Or.inl rfl⟩
  · exact ⟨hp, hz, hpin, Or.inr (Or.inl rfl)⟩
  · exact ⟨(plane_reset_y_vel w.plane).trans hp, hz, hpin,
      Or.inr (Or.inr rfl)⟩

/-- Lemma: `initial_logo` preserves the inductive invariant. -/
theorem goodWorld_initial_logo (inp : Input) (w : World) (h : GoodWorld w) :
    GoodWorld (initial_logo inp w) := by
  unfold initial_logo
  split_ifs
  · exact goodWorld_enter _ _ _ h (Or.inr (Or.inl rfl))
  · exact h

/-- Lemma: `title_screen` preserves the inductive invariant. -/
theorem goodWorld_title_screen (inp : Input) (w : World) (h : GoodWorld w) :
    GoodWorld (title_screen inp w) := by
  obtain ⟨hp, hz, hpin, hstate⟩ := h
  have hA : GoodWorld
      { w with zeppelin := (Zeppelin.reset w.zeppelin).applyXVelocity } :=
    ⟨hp,
      (applyXVelocity_offAxis (Zeppelin.reset w.zeppelin)).2.1.trans
        ((zeppelin_reset_props w.zeppelin).1.trans hz),
      zepPinned_applyX (Zeppelin.reset w.zeppelin)
        (zepPinned_reset w.zeppelin hpin),
      hstate⟩
  have hB : GoodWorld { w with zeppelin := w.zeppelin.applyXVelocity } :=
    ⟨hp, (applyXVelocity_offAxis w.zeppelin).2.1.trans hz,
      zepPinned_applyX w.zeppelin hpin, hstate⟩
  simp only [title_screen]
  split_ifs with h1 h2 h2
  · exact goodWorld_enter _ _ _ hA (Or.inr (Or.inr rfl))
  · exact goodWorld_enter _ _ _ hB (Or.inr (Or.inr rfl))
  · exact hA
  · exact hB

/-- Lemma: `game_active` preserves the inductive invariant. -/
theorem goodWorld_game_active (inp : Input) (w : World) (h : GoodWorld w) :
    GoodWorld (game_active inp w) := by
  obtain ⟨hp, hz, hpin, hstate⟩ := h
  simp only [game_active]
  split_ifs
  · exact goodWorld_enter _ _ _
      ⟨(plane_applyXVelocity_y_vel inp.rand _).trans hp, hz, hpin, hstate⟩
      (Or.inl rfl)
  · exact ⟨(plane_applyXVelocity_y_vel inp.rand _).trans hp, hz, hpin, hstate⟩

/-- One executed frame preserves the inductive invariant. -/
theorem goodWorld_tick (inp : Input) (w : World) (h : GoodWorld w) :
    GoodWorld (tick inp w) := by
  obtain ⟨fc, sp, rs, st, pl, zp⟩ := w
  obtain ⟨hp, hz, hpin, hstate⟩ := h
  have hb : GoodWorld (World.mk (fc + 1) sp rs st pl zp) :=
    ⟨hp, hz, hpin, hstate⟩
  rcases hstate with hs | hs | hs <;> cases hs
  · exact goodWorld_initial_logo inp _ hb
  · exact goodWorld_title_screen inp _ hb
  · exact goodWorld_game_active inp _ hb

/-- The invariant holds after any run of executed frames. -/
theorem goodWorld_run (inputs : List Input) (w : World) (h : GoodWorld w) :
    GoodWorld (run w inputs) := by
  induction inputs generalizing w with
  | nil => exact h
  | cons inp rest ih => exact ih _ (goodWorld_tick inp w h)

/-- The invariant holds right after `setup`. -/
theorem goodWorld_setup (pw ph rt : ℚ) : GoodWorld (setup pw ph rt) :=
  goodWorld_enter _ _ _
    ⟨rfl, rfl, ⟨rfl, rfl, rfl⟩, Or.inl rfl⟩ (Or.inl rfl)

/-! ## State machine claim theorems -/

/-- Claim C5, counterexample: entering `TITLE_SCREEN` through
`enter_state` does NOT reset the Zeppelin during the transition — the
`TITLE_SCREEN` branch of `enter_state` is an empty block, so a zeppelin
parked at `x = 5` is still at `x = 5` afterwards, while its reset
position is `x_max = 148`. -/
theorem enter_state_title_cex :
    (enter_state titleWorld GameState.TITLE_SCREEN 0).zeppelin.x = 5 ∧
      (Zeppelin.reset titleWorld.zeppelin).x = 148 := by
  constructor
  · rfl
  · norm_num [Zeppelin.reset, titleWorld, Zeppelin.init, WIDTH,
      Zeppelin.offscreen_x_margin]

/-- Claim C5, amended: `enter_state` zeroes the frame counter, stops any
playing sound cue and installs the new state; entering `GAME_ACTIVE`
additionally reseeds the RNG and resets the Plane, synchronously during
the transition.  Entering `TITLE_SCREEN` performs no entry action inside
`enter_state` (its branch is an empty block): the Zeppelin reset instead
happens at the start of the first frame of the title screen (the
`frameCount == 1` branch of `title_screen`), before that frame's
horizontal integration of the zeppelin. -/
theorem enter_state_contract (w : World) (ns : GameState) (s : ℕ)
    (inp : Input) (w1 : World) :
    (enter_state w ns s).frameCount = 0 ∧
    (enter_state w ns s).soundPlaying = false ∧
    (enter_state w ns s).state = ns ∧
    (ns = GameState.GAME_ACTIVE →
      (enter_state w ns s).plane = Plane.reset w.plane ∧
      (enter_state w ns s).rngSeed = s) ∧
    (ns = GameState.TITLE_SCREEN →
      (enter_state w ns s).zeppelin = w.zeppelin ∧
      (enter_state w ns s).plane = w.plane) ∧
    (w1.state = GameState.TITLE_SCREEN → w1.frameCount = 0 →
      inp.aJustPressed = false →
      (tick inp w1).zeppelin
        = (Zeppelin.reset w1.zeppelin).applyXVelocity) := by
  refine ⟨?_, ?_, ?_, ?_, ?_, ?_⟩
  · cases ns <;> rfl
  · cases ns <;> rfl
  · cases ns <;> rfl
  · intro h; subst h; exact ⟨rfl, rfl⟩
  · intro h; subst h; exact ⟨rfl, rfl⟩
  · intro h1 h2 h3
    obtain ⟨fc, sp, rs, st, pl, zp⟩ := w1
    dsimp only at h1 h2 ⊢
    subst h1
    subst h2
    simp [tick, title_screen, h3]

/-- Witness for `enter_state_contract`, instantiated at `titleWorld` with
target `GAME_ACTIVE`, and at an idle tick entering the title screen's
first frame. -/
theorem enter_state_contract_witness :
    ((enter_state titleWorld GameState.GAME_ACTIVE 42).plane
        = Plane.reset titleWorld.plane ∧
      (enter_state titleWorld GameState.GAME_ACTIVE 42).rngSeed = 42) ∧
    (tick idleInput { titleWorld with frameCount := 0 }).zeppelin
      = (Zeppelin.reset
          ({ titleWorld with frameCount := 0 } : World).zeppelin).applyXVelocity :=
  ⟨(enter_state_contract titleWorld GameState.GAME_ACTIVE 42 idleInput
      titleWorld).2.2.2.1 rfl,
    (enter_state_contract titleWorld GameState.GAME_ACTIVE 42 idleInput
      { titleWorld with frameCount := 0 }).2.2.2.2.2 rfl rfl rfl⟩

/-- Claim C6: the Zeppelin's `y` is exactly 0 in every state reachable by
any number of ticks from `setup`, and a pinned body (`y = 0` with
`y_min = y_max = 0`, as set by the `Zeppelin()` constructor) keeps
`y = 0` under every sequence of its physics operations (`reset`,
`applyXVelocity`, `applyYVelocity`). -/
theorem zeppelin_y_always_zero (pw ph rt : ℚ) (inputs : List Input)
    (o : GameObject) (ops : List ZepOp)
    (h0 : o.y = 0) (h1 : o.y_min = 0) (h2 : o.y_max = 0) :
    (run (setup pw ph rt) inputs).zeppelin.y = 0 ∧
    (runZepOps o ops).y = 0 :=
  ⟨(goodWorld_run inputs _ (goodWorld_setup pw ph rt)).2.2.1.1,
    (zepPinned_runOps ops o ⟨h0, h1, h2⟩).1⟩

/-- Witness for `zeppelin_y_always_zero`: the running game after one idle
frame, and the fresh zeppelin under a gravity-heavy operation sequence. -/
theorem zeppelin_y_always_zero_witness :
    (run (setup 16 8 40) [idleInput]).zeppelin.y = 0 ∧
    (runZepOps (Zeppelin.init 16)
        [ZepOp.applyY, ZepOp.applyY, ZepOp.applyX, ZepOp.reset,
          ZepOp.applyY]).y = 0 :=
  zeppelin_y_always_zero 16 8 40 [idleInput] (Zeppelin.init 16)
    [ZepOp.applyY, ZepOp.applyY, ZepOp.applyX, ZepOp.reset, ZepOp.applyY]
    rfl rfl rfl

/-- Claim C7: starting from `setup` (state `INITIAL_LOGO`), no sequence of
executed frames and button inputs ever reaches `OBJECTIVE_SCREEN` or
`LEVEL_COMPLETE`: both are dead states of the current control flow. -/
theorem dead_states_unreachable (pw ph rt : ℚ) (inputs : List Input) :
    (run (setup pw ph rt) inputs).state ≠ GameState.OBJECTIVE_SCREEN ∧
    (run (setup pw ph rt) inputs).state ≠ GameState.LEVEL_COMPLETE := by
  rcases (goodWorld_run inputs _ (goodWorld_setup pw ph rt)).2.2.2 with
    h | h | h <;> rw [h] <;> refine ⟨?_, ?_⟩ <;> decide

/-- Claim C10: in every program state reachable from `setup` by any
sequence of executed frames and inputs, both the plane's and the
zeppelin's vertical velocities are exactly 0: no per-state frame handler
ever invokes vertical integration, so gravity and restitution never act
at runtime. -/
theorem y_velocities_always_zero (pw ph rt : ℚ) (inputs : List Input) :
    (run (setup pw ph rt) inputs).plane.y_vel = 0 ∧
    (run (setup pw ph rt) inputs).zeppelin.y_vel = 0 :=
  ⟨(goodWorld_run inputs _ (goodWorld_setup pw ph rt)).1,
    (goodWorld_run inputs _ (goodWorld_setup pw ph rt)).2.1⟩

end RavineDespoilerGame
